import Mathlib

/-!
Shallow embedding of the LinuxDriver_Evaluation functional test harness
(`tests/test_driver.py`), the Lifecycle Test Sequencer.

Python byte strings are modelled as Lean `String`s, one `Char` per byte.
Each OS-level primitive the harness touches (spawning a command, checking a
path, stat-ing it, opening/reading/writing the device file) is an input
supplied by an `Env` record, one field per call site of the fixed test
sequence; every check and the sequencing loop are then pure functions of
that environment, translated line by line from the source.
-/

namespace DriverEval

/-- A Python exception value, tagged with the classes the harness
distinguishes in its `except` clauses (`PermissionError`,
`FileNotFoundError`, anything else); the payload is `str(e)`. -/
inductive PyExc where
  | permission (msg : String)
  | fileNotFound (msg : String)
  | other (msg : String)
deriving DecidableEq

/-- Python `str(e)` on an exception: its message. -/
def PyExc.str : PyExc → String
  | .permission m => m
  | .fileNotFound m => m
  | .other m => m

/-- What `subprocess.run` does for one spawned shell command: it completes
with a return code and captured output, times out, or raises. -/
inductive SpawnOutcome where
  | completed (returncode : Int) (stdout stderr : String)
  | timedOut
  | raised (msg : String)
deriving DecidableEq

/-- `DeviceDriverTester.run_command` (test_driver.py lines 48-62): run the
command, returning `(returncode, stdout, stderr)`; a
`subprocess.TimeoutExpired` is caught and turned into
`(-1, "", "Command timed out")`, any other exception into
`(-1, "", str(e))`. -/
def run_command (o : SpawnOutcome) : Int × String × String :=
  match o with
  | .completed rc out err => (rc, out, err)
  | .timedOut => (-1, "", "Command timed out")
  | .raised msg => (-1, "", msg)

/-- `DeviceDriverTester.is_module_loaded` (lines 64-67): run
`lsmod | grep <module>` and report whether its return code is 0. -/
def is_module_loaded (o : SpawnOutcome) : Bool :=
  (run_command o).1 = 0

/-- One entry of `self.test_results["tests"]`: the status string
("PASS" / "PARTIAL" / "FAIL" / "ERROR"), diagnostic message and score that
every check writes (e.g. lines 84-88). -/
structure TestRecord where
  status : String
  message : String
  score : Nat
deriving DecidableEq

/-- Outcome of calling one `test_*` method: either it stored a record in
`self.test_results["tests"]` under `key` and returned, or an exception with
message `msg` escaped the method body. -/
inductive CheckResult where
  | recorded (key : String) (rec : TestRecord)
  | raised (msg : String)
deriving DecidableEq

/-- The outcomes of the OS-level primitives at each call site of one run of
the fixed seven-check sequence, in execution order. -/
structure Env where
  /-- `self.device_path` (line 35). -/
  devicePath : String
  /-- `lsmod | grep` at line 75; if it reports loaded, the cleanup `rmmod`
  at line 76 runs, its result discarded. Neither affects any record. -/
  lsmodBeforeLoad : SpawnOutcome
  /-- cleanup `sudo rmmod` at line 76; result discarded by the source. -/
  rmmodCleanup : SpawnOutcome
  /-- `sudo insmod <module>` at line 79. -/
  insmod : SpawnOutcome
  /-- `lsmod | grep` confirmation at line 83. -/
  lsmodAfterInsmod : SpawnOutcome
  /-- `os.path.exists(self.device_path)` at line 115 (never raises). -/
  nodeExists : Bool
  /-- `os.stat` + `S_ISCHR` at lines 117-118. The stat call sits outside
  any `try` block, so a raise here escapes the check method. -/
  statIsChr : Except PyExc Bool
  /-- `open(self.device_path, "r+b")` at line 149: `none` means it opened
  and closed fine, `some e` that it raised `e`. -/
  openRW : Option PyExc
  /-- `open(self.device_path, "rb")` plus `device.read(1024)` at lines
  185-186: the bytes read, or the exception raised. -/
  readBytes : Except PyExc String
  /-- `open(self.device_path, "wb")` plus `device.write(test_data)` at
  lines 227-228: the byte count written, or the exception raised. -/
  writeCount : Except PyExc Nat
  /-- consistency-check write session at lines 270-271 (count discarded). -/
  consistencyWrite : Except PyExc Nat
  /-- consistency-check read-back session at lines 274-275; only reached
  when the write session did not raise. -/
  consistencyRead : Except PyExc String
  /-- `sudo rmmod <module>` at line 306. -/
  rmmod : SpawnOutcome
  /-- `lsmod | grep` confirmation at line 310. -/
  lsmodAfterRmmod : SpawnOutcome

/-- `test_module_load` (lines 69-105). The pre-load cleanup (lines 74-76)
touches only kernel state, never the record, so it is elided here. -/
def test_module_load (env : Env) : CheckResult :=
  let r := run_command env.insmod
  if r.1 = 0 then
    if is_module_loaded env.lsmodAfterInsmod then
      .recorded "module_load" ⟨"PASS", "Module loaded successfully", 5⟩
    else
      .recorded "module_load" ⟨"FAIL", "Module not found in lsmod after insmod", 0⟩
  else
    .recorded "module_load" ⟨"FAIL", "insmod failed: " ++ r.2.2, 0⟩

/-- `test_device_node_creation` (lines 107-140). The `time.sleep(1)` settle
delay has no observable effect in the model. `os.stat` at line 117 is not
inside a `try`, so its exception escapes to the sequencer. -/
def test_device_node_creation (env : Env) : CheckResult :=
  if env.nodeExists then
    match env.statIsChr with
    | .error e => .raised e.str
    | .ok isChr =>
      if isChr then
        .recorded "device_node_creation"
          ⟨"PASS", "Character device " ++ env.devicePath ++ " created successfully", 3⟩
      else
        .recorded "device_node_creation"
          ⟨"FAIL", env.devicePath ++ " exists but is not a character device", 0⟩
  else
    .recorded "device_node_creation"
      ⟨"FAIL", "Device node " ++ env.devicePath ++ " not created", 0⟩

/-- `test_device_open_close` (lines 142-177). -/
def test_device_open_close (env : Env) : CheckResult :=
  match env.openRW with
  | none =>
      .recorded "device_open_close" ⟨"PASS", "Device opened and closed successfully", 2⟩
  | some (.permission _) =>
      .recorded "device_open_close" ⟨"FAIL", "Permission denied (try running as root)", 0⟩
  | some (.fileNotFound _) =>
      .recorded "device_open_close" ⟨"FAIL", "Device " ++ env.devicePath ++ " not found", 0⟩
  | some (.other m) =>
      .recorded "device_open_close" ⟨"FAIL", "Open failed: " ++ m, 0⟩

/-- `test_device_read` (lines 179-217). `if data:` is Python truthiness of
a bytes object: true exactly when it is non-empty. -/
def test_device_read (env : Env) : CheckResult :=
  match env.readBytes with
  | .ok data =>
      if data ≠ "" then
        .recorded "device_read"
          ⟨"PASS", "Read " ++ toString data.length ++ " bytes successfully", 2⟩
      else
        .recorded "device_read" ⟨"PARTIAL", "Read succeeded but returned no data", 1⟩
  | .error (.permission _) =>
      .recorded "device_read" ⟨"FAIL", "Permission denied (try running as root)", 0⟩
  | .error e =>
      .recorded "device_read" ⟨"FAIL", "Read failed: " ++ e.str, 0⟩

/-- The literal write payload `b"Hello, Device Driver Test!"` (line 224). -/
def write_test_data : String := "Hello, Device Driver Test!"

/-- `test_device_write` (lines 219-259). -/
def test_device_write (env : Env) : CheckResult :=
  match env.writeCount with
  | .ok w =>
      if w = write_test_data.length then
        .recorded "device_write"
          ⟨"PASS", "Wrote " ++ toString w ++ " bytes successfully", 2⟩
      else
        .recorded "device_write"
          ⟨"PARTIAL",
           "Partial write: " ++ toString w ++ "/" ++ toString write_test_data.length ++ " bytes",
           1⟩
  | .error (.permission _) =>
      .recorded "device_write" ⟨"FAIL", "Permission denied (try running as root)", 0⟩
  | .error e =>
      .recorded "device_write" ⟨"FAIL", "Write failed: " ++ e.str, 0⟩

/-- The literal consistency payload `b"Consistency Test Data 123"`
(line 266). -/
def consistency_test_data : String := "Consistency Test Data 123"

/-- Lower-case hexadecimal digit, as Python uses in `\xhh` escapes. -/
def hexDigit (n : Nat) : Char :=
  if n < 10 then Char.ofNat (48 + n) else Char.ofNat (87 + n)

/-- CPython `repr` of one byte inside a bytes literal delimited by `quote`
(backslash is byte 92): backslash and the active quote character are
backslash-escaped, tab/newline/carriage-return use their short escapes,
other non-printable bytes become `\xhh`, and everything else — including
the quote character not in use — is rendered literally. -/
def pyByteEscape (quote : Char) (c : Char) : String :=
  let n := c.toNat
  if n = 92 then "\\\\"
  else if c = quote then "\\" ++ String.singleton quote
  else if n = 9 then "\\t"
  else if n = 10 then "\\n"
  else if n = 13 then "\\r"
  else if 32 ≤ n ∧ n < 127 then String.singleton c
  else "\\x" ++ String.singleton (hexDigit (n / 16 % 16)) ++ String.singleton (hexDigit (n % 16))

/-- CPython `repr` of a bytes object, as the f-string at line 288 renders
it: `b` followed by the quoted escaped bytes, where the quote character is
chosen by CPython's smart-quote rule — a single quote (byte 39) by
default, but a double quote (byte 34) when the data contains a single
quote and no double quote (in which case the single quote is left
unescaped). -/
def pyBytesRepr (s : String) : String :=
  let hasSingle := s.toList.any fun c => c.toNat = 39
  let hasDouble := s.toList.any fun c => c.toNat = 34
  let q : Char := if hasSingle && !hasDouble then Char.ofNat 34 else Char.ofNat 39
  "b" ++ String.singleton q ++ String.join (s.toList.map (pyByteEscape q)) ++ String.singleton q

/-- `test_read_write_consistency` (lines 261-299): write the payload in one
session, read `len(test_data)` bytes back in a second session, compare
byte-for-byte; any exception in either session is caught by the check's
own `except Exception`. -/
def test_read_write_consistency (env : Env) : CheckResult :=
  match env.consistencyWrite with
  | .error e =>
      .recorded "read_write_consistency" ⟨"FAIL", "Consistency test failed: " ++ e.str, 0⟩
  | .ok _ =>
    match env.consistencyRead with
    | .error e =>
        .recorded "read_write_consistency" ⟨"FAIL", "Consistency test failed: " ++ e.str, 0⟩
    | .ok readData =>
        if readData = consistency_test_data then
          .recorded "read_write_consistency" ⟨"PASS", "Write-read consistency verified", 3⟩
        else
          .recorded "read_write_consistency"
            ⟨"FAIL",
             "Data mismatch: wrote " ++ pyBytesRepr consistency_test_data ++
               ", read " ++ pyBytesRepr readData,
             0⟩

/-- `test_module_unload` (lines 301-332). -/
def test_module_unload (env : Env) : CheckResult :=
  let r := run_command env.rmmod
  if r.1 = 0 then
    if ¬ is_module_loaded env.lsmodAfterRmmod then
      .recorded "module_unload" ⟨"PASS", "Module unloaded successfully", 2⟩
    else
      .recorded "module_unload" ⟨"FAIL", "Module still loaded after rmmod", 0⟩
  else
    .recorded "module_unload" ⟨"FAIL", "rmmod failed: " ++ r.2.2, 0⟩

/-- `summary` (lines 40-45): the four counters the run accumulates. -/
structure Summary where
  total_tests : Nat
  passed : Nat
  failed : Nat
  score : Nat
deriving DecidableEq

/-- The structured result of one run: the ordered `tests` mapping (the
Python dict in insertion order; all keys of one run are distinct) plus the
computed summary. -/
structure RunResult where
  tests : List (String × TestRecord)
  summary : Summary
deriving DecidableEq

/-- The fixed test sequence of `run_all_tests` (lines 340-348), each check
paired with its method's `__name__`, which the sequencer-level exception
handler at line 356 uses as the dict key. -/
def testSequence : List (String × (Env → CheckResult)) :=
  [("test_module_load", test_module_load),
   ("test_device_node_creation", test_device_node_creation),
   ("test_device_open_close", test_device_open_close),
   ("test_device_read", test_device_read),
   ("test_device_write", test_device_write),
   ("test_read_write_consistency", test_read_write_consistency),
   ("test_module_unload", test_module_unload)]

/-- One iteration of the loop at lines 350-361: a check that returned has
already stored its record under its own short key; a check whose body
raised is recorded by the handler as `{"status": "ERROR", "message":
str(e), "score": 0}` under the method's `__name__`. -/
def runOne (fullName : String) (res : CheckResult) : String × TestRecord :=
  match res with
  | .recorded key rec => (key, rec)
  | .raised msg => (fullName, ⟨"ERROR", msg, 0⟩)

/-- The summary loop at lines 363-370: fold over the stored records,
incrementing `passed` on status "PASS" and `failed` otherwise, and adding
every record's score into `score`. -/
def summarize (tests : List (String × TestRecord)) (acc : Summary) : Summary :=
  match tests with
  | [] => acc
  | t :: rest =>
      let acc1 :=
        if t.2.status = "PASS" then { acc with passed := acc.passed + 1 }
        else { acc with failed := acc.failed + 1 }
      summarize rest { acc1 with score := acc1.score + t.2.score }

/-- `run_all_tests` (lines 334-383): run the seven checks in order under
the fault-isolation handler (`total_tests` is incremented exactly once per
iteration, on both paths), then compute the summary over the stored
records. -/
def run_all_tests (env : Env) : RunResult :=
  let tests := testSequence.map (fun p => runOne p.1 (p.2 env))
  { tests := tests
    summary :=
      summarize tests { total_tests := tests.length, passed := 0, failed := 0, score := 0 } }

/-- `main` (lines 385-417): if the module artifact path does not exist the
process exits with status 1 before any check (`none`); otherwise the run
completes and the results structure is written to
`reports/functional_test_results.json` (`some`). -/
def harness_main (modulePathExists : Bool) (env : Env) : Option RunResult :=
  if ¬ modulePathExists then none
  else some (run_all_tests env)

/-- The short names the seven checks store their own records under, in
execution order. -/
def checkShortNames : List String :=
  ["module_load", "device_node_creation", "device_open_close",
   "device_read", "device_write", "read_write_consistency", "module_unload"]

/-! ### Concrete environments used as witnesses and counterexamples -/

/-- A run in which every underlying operation succeeds exactly as the spec
describes: insmod returns 0 and the module shows up in lsmod, the character
device node exists, open/read/write all work, the consistency read-back
matches, rmmod returns 0 and the module is gone. -/
def successEnv : Env :=
  { devicePath := "/dev/hello_world"
    lsmodBeforeLoad := .completed 1 "" ""
    rmmodCleanup := .completed 0 "" ""
    insmod := .completed 0 "" ""
    lsmodAfterInsmod := .completed 0 "hello_world 16384 0" ""
    nodeExists := true
    statIsChr := .ok true
    openRW := none
    readBytes := .ok "hello from device"
    writeCount := .ok 26
    consistencyWrite := .ok 25
    consistencyRead := .ok "Consistency Test Data 123"
    rmmod := .completed 0 "" ""
    lsmodAfterRmmod := .completed 1 "" "" }

/-- Like `successEnv`, but the read at line 186 raises a simulated I/O
fault. -/
def ioFaultEnv : Env :=
  { successEnv with readBytes := .error (.other "Simulated I/O fault") }

/-- Like `ioFaultEnv`, but additionally the `os.stat` at line 117 raises
(the node vanished between the `exists` probe and the stat), the one
modelled operation whose exception escapes a check body. -/
def doubleFaultEnv : Env :=
  { ioFaultEnv with statIsChr := .error (.fileNotFound "No such file or directory") }

/-- Like `successEnv`, but only the `os.stat` at line 117 raises. -/
def statRaisesEnv : Env :=
  { successEnv with statIsChr := .error (.fileNotFound "No such file or directory") }

/-- Like `successEnv`, but rmmod returns 0 while `lsmod | grep` still finds
the module afterwards. -/
def stillLoadedEnv : Env :=
  { successEnv with lsmodAfterRmmod := .completed 0 "hello_world 16384 0" "" }

/-- Like `successEnv`, but the read returns zero bytes. -/
def emptyReadEnv : Env :=
  { successEnv with readBytes := .ok "" }

/-- Like `successEnv`, but the write reports only 10 of the 26 payload
bytes written. -/
def partialWriteEnv : Env :=
  { successEnv with writeCount := .ok 10 }

/-- Like `successEnv`, but the consistency read-back returns a short,
different buffer. -/
def mismatchEnv : Env :=
  { successEnv with consistencyRead := .ok "Consistency" }

/-- The 5-byte buffer `don't`: it contains a single quote (byte 39) and no
double quote, so CPython renders its repr double-quoted. -/
def quotedReadData : String := "don" ++ String.singleton (Char.ofNat 39) ++ "t"

/-- Like `successEnv`, but the consistency read-back returns
`quotedReadData`, exercising the smart-quote branch of the mismatch
message. -/
def quoteReadEnv : Env :=
  { successEnv with consistencyRead := .ok quotedReadData }

/-- Like `successEnv`, but both module commands time out. -/
def timeoutEnv : Env :=
  { successEnv with insmod := .timedOut, rmmod := .timedOut }

/-- An environment in which every check fails: insmod and rmmod return
non-zero, no device node exists, and every file operation raises. -/
def allFailEnv : Env :=
  { devicePath := "/dev/hello_world"
    lsmodBeforeLoad := .completed 1 "" ""
    rmmodCleanup := .completed 1 "" ""
    insmod := .completed 1 "" "insmod: could not insert module"
    lsmodAfterInsmod := .completed 1 "" ""
    nodeExists := false
    statIsChr := .ok false
    openRW := some (.fileNotFound "No such file")
    readBytes := .error (.other "read error")
    writeCount := .error (.other "write error")
    consistencyWrite := .error (.other "open error")
    consistencyRead := .error (.other "unused")
    rmmod := .completed 1 "" "rmmod: module not currently loaded"
    lsmodAfterRmmod := .completed 1 "" "" }

/-! ### Helper lemmas: the shape of each check's outcome -/

/-- The module-load check always records under "module_load", with status
PASS or FAIL. -/
theorem test_module_load_shape (env : Env) :
    ∃ r, test_module_load env = .recorded "module_load" r ∧
      (r.status = "PASS" ∨ r.status = "FAIL") := by
  unfold test_module_load
  by_cases h : (run_command env.insmod).1 = 0 <;>
    by_cases h2 : is_module_loaded env.lsmodAfterInsmod <;>
      simp [h, h2]

/-- The node-creation check either records under "device_node_creation"
with status PASS or FAIL, or its `os.stat` raises. -/
theorem test_device_node_creation_shape (env : Env) :
    (∃ r, test_device_node_creation env = .recorded "device_node_creation" r ∧
      (r.status = "PASS" ∨ r.status = "FAIL")) ∨
    (∃ m, test_device_node_creation env = .raised m) := by
  unfold test_device_node_creation
  by_cases h : env.nodeExists
  · rcases hs : env.statIsChr with e | b
    · right; simp [h, hs]
    · left; by_cases hb : b <;> simp [h, hs, hb]
  · left; simp [h]

/-- The open/close check always records under "device_open_close", with
status PASS or FAIL. -/
theorem test_device_open_close_shape (env : Env) :
    ∃ r, test_device_open_close env = .recorded "device_open_close" r ∧
      (r.status = "PASS" ∨ r.status = "FAIL") := by
  unfold test_device_open_close
  rcases env.openRW with _ | e
  · simp
  · rcases e <;> simp

/-- The read check always records under "device_read", with status PASS,
PARTIAL or FAIL. -/
theorem test_device_read_shape (env : Env) :
    ∃ r, test_device_read env = .recorded "device_read" r ∧
      (r.status = "PASS" ∨ r.status = "PARTIAL" ∨ r.status = "FAIL") := by
  unfold test_device_read
  rcases env.readBytes with e | d
  · rcases e <;> simp
  · by_cases hd : d = "" <;> simp [hd]

/-- The write check always records under "device_write", with status PASS,
PARTIAL or FAIL. -/
theorem test_device_write_shape (env : Env) :
    ∃ r, test_device_write env = .recorded "device_write" r ∧
      (r.status = "PASS" ∨ r.status = "PARTIAL" ∨ r.status = "FAIL") := by
  unfold test_device_write
  rcases env.writeCount with e | w
  · rcases e <;> simp
  · by_cases hw : w = write_test_data.length <;> simp [hw]

/-- The consistency check always records under "read_write_consistency",
with status PASS or FAIL. -/
theorem test_read_write_consistency_shape (env : Env) :
    ∃ r, test_read_write_consistency env = .recorded "read_write_consistency" r ∧
      (r.status = "PASS" ∨ r.status = "FAIL") := by
  unfold test_read_write_consistency
  rcases env.consistencyWrite with e | w
  · simp
  · rcases env.consistencyRead with e | d
    · simp
    · by_cases hd : d = consistency_test_data <;> simp [hd]

/-- The module-unload check always records under "module_unload", with
status PASS or FAIL. -/
theorem test_module_unload_shape (env : Env) :
    ∃ r, test_module_unload env = .recorded "module_unload" r ∧
      (r.status = "PASS" ∨ r.status = "FAIL") := by
  unfold test_module_unload
  by_cases h : (run_command env.rmmod).1 = 0 <;>
    by_cases h2 : is_module_loaded env.lsmodAfterRmmod <;>
      simp [h, h2]

/-- The summary fold is the filter/sum characterization: starting from
`acc` it adds the number of PASS records to `passed`, the number of
non-PASS records to `failed`, and the sum of all scores to `score`,
leaving `total_tests` unchanged. -/
theorem summarize_spec (tests : List (String × TestRecord)) (acc : Summary) :
    summarize tests acc =
      { total_tests := acc.total_tests
        passed := acc.passed + (tests.filter fun t => t.2.status == "PASS").length
        failed := acc.failed + (tests.filter fun t => t.2.status != "PASS").length
        score := acc.score + (tests.map fun t => t.2.score).sum } := by
  induction tests generalizing acc with
  | nil => simp [summarize]
  | cons t rest ih =>
      by_cases h : t.2.status = "PASS" <;>
        simp [summarize, h, ih] <;> constructor <;> ring

/-- Every record stored by a run has one of the four statuses "PASS",
"PARTIAL", "FAIL" or "ERROR". -/
theorem run_status_cases (env : Env) :
    ∀ t ∈ (run_all_tests env).tests,
      t.2.status = "PASS" ∨ t.2.status = "PARTIAL" ∨
      t.2.status = "FAIL" ∨ t.2.status = "ERROR" := by
  intro t ht
  simp only [run_all_tests, testSequence, List.map_cons, List.map_nil, List.mem_cons,
    List.not_mem_nil, or_false] at ht
  rcases ht with h | h | h | h | h | h | h
  · obtain ⟨r, hr, hst⟩ := test_module_load_shape env
    rw [h, hr]; simp only [runOne]; tauto
  · rcases test_device_node_creation_shape env with ⟨r, hr, hst⟩ | ⟨m, hm⟩
    · rw [h, hr]; simp only [runOne]; tauto
    · rw [h, hm]; simp only [runOne]; tauto
  · obtain ⟨r, hr, hst⟩ := test_device_open_close_shape env
    rw [h, hr]; simp only [runOne]; tauto
  · obtain ⟨r, hr, hst⟩ := test_device_read_shape env
    rw [h, hr]; simp only [runOne]; tauto
  · obtain ⟨r, hr, hst⟩ := test_device_write_shape env
    rw [h, hr]; simp only [runOne]; tauto
  · obtain ⟨r, hr, hst⟩ := test_read_write_consistency_shape env
    rw [h, hr]; simp only [runOne]; tauto
  · obtain ⟨r, hr, hst⟩ := test_module_unload_shape env
    rw [h, hr]; simp only [runOne]; tauto

/-- C1: in a run in which every underlying operation succeeds exactly as
specified — insmod returns 0 and the module then shows in lsmod, the node
exists and is a character device, open succeeds, the read is non-empty,
the write reports the full payload length, the consistency read-back
equals the payload, rmmod returns 0 and the module is then absent — all
seven checks record status PASS with scores 5, 3, 2, 2, 2, 3, 2 in
execution order, and the summary has passed = 7, failed = 0 and
score = 19. -/
theorem run_fully_successful (env : Env) (d : String) (w : Nat)
    (hins : (run_command env.insmod).1 = 0)
    (hldA : is_module_loaded env.lsmodAfterInsmod = true)
    (hnode : env.nodeExists = true)
    (hchr : env.statIsChr = .ok true)
    (hopen : env.openRW = none)
    (hread : env.readBytes = .ok d) (hdne : d ≠ "")
    (hwrite : env.writeCount = .ok write_test_data.length)
    (hcw : env.consistencyWrite = .ok w)
    (hcr : env.consistencyRead = .ok consistency_test_data)
    (hrm : (run_command env.rmmod).1 = 0)
    (hldR : is_module_loaded env.lsmodAfterRmmod = false) :
    ((run_all_tests env).tests.map fun t => (t.2.status, t.2.score)) =
      [("PASS", 5), ("PASS", 3), ("PASS", 2), ("PASS", 2),
       ("PASS", 2), ("PASS", 3), ("PASS", 2)] ∧
    (run_all_tests env).summary.passed = 7 ∧
    (run_all_tests env).summary.failed = 0 ∧
    (run_all_tests env).summary.score = 19 := by
  simp [run_all_tests, testSequence, runOne, test_module_load,
    test_device_node_creation, test_device_open_close, test_device_read,
    test_device_write, test_read_write_consistency, test_module_unload,
    summarize, hins, hldA, hnode, hchr, hopen, hread, hdne, hwrite,
    hcw, hcr, hrm, hldR]

/-- Witness for C1 at the concrete fully-successful environment. -/
theorem run_fully_successful_witness :
    ((run_all_tests successEnv).tests.map fun t => (t.2.status, t.2.score)) =
      [("PASS", 5), ("PASS", 3), ("PASS", 2), ("PASS", 2),
       ("PASS", 2), ("PASS", 3), ("PASS", 2)] ∧
    (run_all_tests successEnv).summary.passed = 7 ∧
    (run_all_tests successEnv).summary.failed = 0 ∧
    (run_all_tests successEnv).summary.score = 19 :=
  run_fully_successful successEnv "hello from device" 25
    rfl rfl rfl rfl rfl rfl (by decide) rfl rfl rfl rfl rfl

/-- C2: for every run, `total_tests` equals the number of stored records
(all seven checks are attempted), `passed` counts exactly the PASS
records, `failed` counts exactly the non-PASS records — equivalently the
PARTIAL, FAIL and ERROR records — and `score` is the raw sum of the
per-check scores, with no normalization against the external
denominator 17. -/
theorem summary_aggregation (env : Env) :
    (run_all_tests env).summary.total_tests = (run_all_tests env).tests.length ∧
    (run_all_tests env).tests.length = 7 ∧
    (run_all_tests env).summary.passed =
      ((run_all_tests env).tests.filter fun t => t.2.status == "PASS").length ∧
    (run_all_tests env).summary.failed =
      ((run_all_tests env).tests.filter fun t => t.2.status != "PASS").length ∧
    (run_all_tests env).summary.failed =
      ((run_all_tests env).tests.filter fun t =>
        t.2.status == "PARTIAL" || t.2.status == "FAIL" || t.2.status == "ERROR").length ∧
    (run_all_tests env).summary.score =
      ((run_all_tests env).tests.map fun t => t.2.score).sum := by
  have hlen : (run_all_tests env).tests.length = 7 := by
    simp [run_all_tests, testSequence]
  have hfc :
      ((run_all_tests env).tests.filter fun t => t.2.status != "PASS") =
      ((run_all_tests env).tests.filter fun t =>
        t.2.status == "PARTIAL" || t.2.status == "FAIL" || t.2.status == "ERROR") := by
    apply List.filter_congr
    intro t ht
    rcases run_status_cases env t ht with h | h | h | h <;> rw [h] <;> decide
  refine ⟨?_, hlen, ?_, ?_, ?_, ?_⟩ <;>
    simp only [run_all_tests, summarize_spec] <;> simp [← hfc]
  · rw [show (run_all_tests env).tests =
      (testSequence.map fun p => runOne p.1 (p.2 env)) from rfl] at hfc
    simp [hfc]

/-- C3: the module-unload check records PASS with score 2 exactly when the
rmmod command returns 0 and the module is absent from lsmod afterwards; a
zero-status rmmod with the module still listed records FAIL with score 0,
and a non-zero rmmod records FAIL with score 0 with rmmod's stderr in the
message. -/
theorem module_unload_classification (env : Env) :
    (test_module_unload env =
        .recorded "module_unload" ⟨"PASS", "Module unloaded successfully", 2⟩
      ↔ ((run_command env.rmmod).1 = 0 ∧ is_module_loaded env.lsmodAfterRmmod = false)) ∧
    ((run_command env.rmmod).1 = 0 → is_module_loaded env.lsmodAfterRmmod = true →
      test_module_unload env =
        .recorded "module_unload" ⟨"FAIL", "Module still loaded after rmmod", 0⟩) ∧
    ((run_command env.rmmod).1 ≠ 0 →
      test_module_unload env =
        .recorded "module_unload"
          ⟨"FAIL", "rmmod failed: " ++ (run_command env.rmmod).2.2, 0⟩) := by
  by_cases h1 : (run_command env.rmmod).1 = 0 <;>
    by_cases h2 : is_module_loaded env.lsmodAfterRmmod <;>
      simp [test_module_unload, h1, h2]

/-- Witness for C3: a zero-status rmmod with the module still listed in
lsmod yields FAIL, not PASS. -/
theorem module_unload_classification_witness :
    test_module_unload stillLoadedEnv =
      .recorded "module_unload" ⟨"FAIL", "Module still loaded after rmmod", 0⟩ :=
  (module_unload_classification stillLoadedEnv).2.1 (by decide) (by decide)

/-- C4 counterexample: at the explicit input where the read raises a
simulated I/O fault, the read check is recorded with status FAIL (message
prefixed "Read failed: "), no record of the run has status ERROR, and the
write and consistency checks still ran — refuting the claim that such an
exception is recorded with status ERROR carrying the raw exception
message. -/
theorem read_fault_not_error :
    (run_all_tests ioFaultEnv).tests.get? 3 =
      some ("device_read", ⟨"FAIL", "Read failed: Simulated I/O fault", 0⟩) ∧
    ((run_all_tests ioFaultEnv).tests.all fun t => t.2.status != "ERROR") = true ∧
    (run_all_tests ioFaultEnv).tests.get? 4 =
      some ("device_write", ⟨"PASS", "Wrote 26 bytes successfully", 2⟩) ∧
    (run_all_tests ioFaultEnv).tests.get? 5 =
      some ("read_write_consistency", ⟨"PASS", "Write-read consistency verified", 3⟩) := by
  decide

/-- C4 (amended): an exception raised inside a check's own try block, such
as an I/O fault during the read, is caught by the check itself and
recorded as FAIL with score 0 with the exception's message embedded after
a per-check prefix; only an exception that escapes a check body (the
modelled case: `os.stat` raising in the node check) is caught at the
sequencer level and recorded as ERROR with score 0 and the exception's
raw message; in both cases the remaining checks, including write and
consistency, still execute. -/
theorem read_fault_check_level (env : Env) (msg : String)
    (hread : env.readBytes = .error (.other msg)) :
    (run_all_tests env).tests.get? 3 =
      some ("device_read", ⟨"FAIL", "Read failed: " ++ msg, 0⟩) ∧
    (run_all_tests env).tests.get? 4 =
      some (runOne "test_device_write" (test_device_write env)) ∧
    (run_all_tests env).tests.get? 5 =
      some (runOne "test_read_write_consistency" (test_read_write_consistency env)) ∧
    (run_all_tests env).tests.length = 7 ∧
    (∀ e, env.nodeExists = true → env.statIsChr = Except.error e →
      (run_all_tests env).tests.get? 1 =
        some ("test_device_node_creation", ⟨"ERROR", PyExc.str e, 0⟩)) := by
  refine ⟨?_, ?_, ?_, ?_, ?_⟩
  · simp [run_all_tests, testSequence, runOne, test_device_read, hread, PyExc.str, List.get?]
  · simp [run_all_tests, testSequence, List.get?]
  · simp [run_all_tests, testSequence, List.get?]
  · simp [run_all_tests, testSequence]
  · intro e hn hs
    simp [run_all_tests, testSequence, runOne, test_device_node_creation, hn, hs, List.get?]

/-- Witness for the amended C4 at the concrete double-fault environment. -/
theorem read_fault_check_level_witness :
    (run_all_tests doubleFaultEnv).tests.get? 3 =
      some ("device_read", ⟨"FAIL", "Read failed: Simulated I/O fault", 0⟩) ∧
    (run_all_tests doubleFaultEnv).tests.get? 1 =
      some ("test_device_node_creation", ⟨"ERROR", "No such file or directory", 0⟩) := by
  have h := read_fault_check_level doubleFaultEnv "Simulated I/O fault" rfl
  exact ⟨h.1, h.2.2.2.2 (PyExc.fileNotFound "No such file or directory") rfl rfl⟩

/-- C5: the read check classifies exactly at the zero-vs-nonzero boundary:
a non-empty read records PASS with score 2, a read that succeeds with
zero bytes records PARTIAL with score 1, and any exception during the
read records FAIL with score 0. -/
theorem device_read_classification (env : Env) :
    (∀ d : String, env.readBytes = .ok d → d ≠ "" →
      test_device_read env = .recorded "device_read"
        ⟨"PASS", "Read " ++ toString d.length ++ " bytes successfully", 2⟩) ∧
    (env.readBytes = .ok "" →
      test_device_read env = .recorded "device_read"
        ⟨"PARTIAL", "Read succeeded but returned no data", 1⟩) ∧
    (∀ e : PyExc, env.readBytes = .error e →
      ∃ m, test_device_read env = .recorded "device_read" ⟨"FAIL", m, 0⟩) := by
  refine ⟨?_, ?_, ?_⟩
  · intro d hd hdne; simp [test_device_read, hd, hdne]
  · intro h; simp [test_device_read, h]
  · intro e he; rcases e <;> simp [test_device_read, he]

/-- Witness for C5 at the concrete zero-byte-read environment. -/
theorem device_read_classification_witness :
    test_device_read emptyReadEnv =
      .recorded "device_read" ⟨"PARTIAL", "Read succeeded but returned no data", 1⟩ :=
  (device_read_classification emptyReadEnv).2.1 rfl

/-- C6: the write check records PASS with score 2 when the reported byte
count equals the 26-byte payload length, records PARTIAL with score 1
with a written/total message for any strictly smaller count, and records
FAIL with score 0 on any exception. -/
theorem device_write_classification (env : Env) :
    (env.writeCount = .ok write_test_data.length →
      test_device_write env = .recorded "device_write"
        ⟨"PASS", "Wrote " ++ toString write_test_data.length ++ " bytes successfully", 2⟩) ∧
    (∀ w, env.writeCount = .ok w → w < write_test_data.length →
      test_device_write env = .recorded "device_write"
        ⟨"PARTIAL",
         "Partial write: " ++ toString w ++ "/" ++ toString write_test_data.length ++ " bytes",
         1⟩) ∧
    (∀ e, env.writeCount = .error e →
      ∃ m, test_device_write env = .recorded "device_write" ⟨"FAIL", m, 0⟩) ∧
    write_test_data.length = 26 := by
  refine ⟨?_, ?_, ?_, by decide⟩
  · intro h; simp [test_device_write, h]
  · intro w hw hlt
    have hne : w ≠ write_test_data.length := Nat.ne_of_lt hlt
    simp [test_device_write, hw, hne]
  · intro e he; rcases e <;> simp [test_device_write, he]

/-- Witness for C6: 10 of the 26 payload bytes written yields PARTIAL with
the message reporting 10/26. -/
theorem device_write_classification_witness :
    test_device_write partialWriteEnv =
      .recorded "device_write"
        ⟨"PARTIAL",
         "Partial write: " ++ toString 10 ++ "/" ++ toString write_test_data.length ++ " bytes",
         1⟩ ∧
    "Partial write: " ++ toString 10 ++ "/" ++ toString write_test_data.length ++ " bytes" =
      "Partial write: 10/26 bytes" :=
  ⟨(device_write_classification partialWriteEnv).2.1 10 rfl (by decide), by decide⟩

/-- C7: the consistency check writes the 25-byte literal payload, reads
back the same byte count in a second session, and records PASS with
score 3 on exact equality; any other read-back records FAIL with score 0
with both the written and read buffers (in CPython bytes repr, including
its smart-quote rule) embedded in the message: the payload's repr is
single-quoted, while a read-back containing a single quote and no double
quote is rendered double-quoted with the single quote unescaped. -/
theorem consistency_classification (env : Env) :
    (∀ w, env.consistencyWrite = .ok w → env.consistencyRead = .ok consistency_test_data →
      test_read_write_consistency env =
        .recorded "read_write_consistency" ⟨"PASS", "Write-read consistency verified", 3⟩) ∧
    (∀ w d, env.consistencyWrite = .ok w → env.consistencyRead = .ok d →
      d ≠ consistency_test_data →
      test_read_write_consistency env =
        .recorded "read_write_consistency"
          ⟨"FAIL",
           "Data mismatch: wrote " ++ pyBytesRepr consistency_test_data ++
             ", read " ++ pyBytesRepr d, 0⟩) ∧
    consistency_test_data = "Consistency Test Data 123" ∧
    pyBytesRepr consistency_test_data =
      "b" ++ String.singleton (Char.ofNat 39) ++ "Consistency Test Data 123" ++
        String.singleton (Char.ofNat 39) ∧
    pyBytesRepr quotedReadData =
      "b" ++ String.singleton (Char.ofNat 34) ++ quotedReadData ++
        String.singleton (Char.ofNat 34) := by
  refine ⟨?_, ?_, rfl, by decide, by decide⟩
  · intro w hw hr; simp [test_read_write_consistency, hw, hr]
  · intro w d hw hd hne; simp [test_read_write_consistency, hw, hd, hne]

/-- Witness for C7 at two concrete mismatch environments: a short read
with no quote bytes, and the 5-byte smart-quote read-back. -/
theorem consistency_classification_witness :
    (test_read_write_consistency mismatchEnv =
      .recorded "read_write_consistency"
        ⟨"FAIL",
         "Data mismatch: wrote " ++ pyBytesRepr consistency_test_data ++
           ", read " ++ pyBytesRepr "Consistency", 0⟩) ∧
    (test_read_write_consistency quoteReadEnv =
      .recorded "read_write_consistency"
        ⟨"FAIL",
         "Data mismatch: wrote " ++ pyBytesRepr consistency_test_data ++
           ", read " ++ pyBytesRepr quotedReadData, 0⟩) :=
  ⟨(consistency_classification mismatchEnv).2.1 25 "Consistency" rfl rfl (by decide),
   (consistency_classification quoteReadEnv).2.1 25 quotedReadData rfl rfl (by decide)⟩

/-- C8: a timed-out spawned command is returned by `run_command` as a
non-zero outcome with captured diagnostic text instead of raising, the
module checks classify it like any other command failure, and no timeout
terminates the run: every run still records all seven checks. -/
theorem timeout_as_failure :
    run_command SpawnOutcome.timedOut = (-1, "", "Command timed out") ∧
    (run_command SpawnOutcome.timedOut).1 ≠ 0 ∧
    (∀ env : Env, env.insmod = SpawnOutcome.timedOut →
      test_module_load env =
        .recorded "module_load" ⟨"FAIL", "insmod failed: Command timed out", 0⟩) ∧
    (∀ env : Env, env.rmmod = SpawnOutcome.timedOut →
      test_module_unload env =
        .recorded "module_unload" ⟨"FAIL", "rmmod failed: Command timed out", 0⟩) ∧
    (∀ env : Env, (run_all_tests env).tests.length = 7) := by
  refine ⟨rfl, by decide, ?_, ?_, ?_⟩
  · intro env h
    unfold test_module_load
    rw [h, if_neg (by decide : ¬ (run_command SpawnOutcome.timedOut).1 = 0)]
    decide
  · intro env h
    unfold test_module_unload
    rw [h, if_neg (by decide : ¬ (run_command SpawnOutcome.timedOut).1 = 0)]
    decide
  · intro env; simp [run_all_tests, testSequence]

/-- Witness for C8 at the concrete timeout environment. -/
theorem timeout_as_failure_witness :
    test_module_load timeoutEnv =
      .recorded "module_load" ⟨"FAIL", "insmod failed: Command timed out", 0⟩ ∧
    test_module_unload timeoutEnv =
      .recorded "module_unload" ⟨"FAIL", "rmmod failed: Command timed out", 0⟩ :=
  ⟨timeout_as_failure.2.2.1 timeoutEnv rfl, timeout_as_failure.2.2.2.1 timeoutEnv rfl⟩

/-- C9: the harness exits non-zero (producing no result structure) exactly
when the module artifact path does not exist before any check starts; in
every other case the run completes and the structured result of the full
run is persisted, even in the run where every single check fails. -/
theorem exit_behavior (pathExists : Bool) (env : Env) :
    (harness_main pathExists env = none ↔ pathExists = false) ∧
    (pathExists = true → harness_main pathExists env = some (run_all_tests env)) ∧
    harness_main true allFailEnv = some (run_all_tests allFailEnv) ∧
    (run_all_tests allFailEnv).summary.passed = 0 ∧
    (run_all_tests allFailEnv).summary.failed = 7 ∧
    (run_all_tests allFailEnv).summary.total_tests = 7 := by
  refine ⟨?_, ?_, by decide, by decide, by decide, by decide⟩
  · cases pathExists <;> simp [harness_main]
  · intro h; subst h; simp [harness_main]

/-- Witness for C9 at the concrete all-checks-fail environment. -/
theorem exit_behavior_witness :
    harness_main true allFailEnv = some (run_all_tests allFailEnv) :=
  (exit_behavior true allFailEnv).2.1 rfl

/-- One loop iteration keyed: a check that stored its own record appears
under its short name with a non-ERROR status, and a check whose body
raised appears under the method's full name with status ERROR. -/
theorem runOne_key (fullName short : String) (c : CheckResult)
    (h : (∃ r, c = .recorded short r ∧ r.status ≠ "ERROR") ∨ (∃ m, c = .raised m)) :
    (((runOne fullName c).1 == short && (runOne fullName c).2.status != "ERROR") ||
     ((runOne fullName c).1 == fullName && (runOne fullName c).2.status == "ERROR")) = true := by
  rcases h with ⟨r, hc, hst⟩ | ⟨m, hc⟩
  · subst hc; simp [runOne, hst]
  · subst hc; simp [runOne]

/-- C10: the key a check's record is stored under depends on the outcome
path: every record of every run sits either under the check's short name
with a status other than ERROR, or under the method's full
"test_"-prefixed name with status ERROR; concretely, the node-creation
check's record moves from key "device_node_creation" to key
"test_device_node_creation" when its `os.stat` raises. -/
theorem record_key_by_outcome (env : Env) :
    (((run_all_tests env).tests.zip checkShortNames).all fun p =>
      (p.1.1 == p.2 && p.1.2.status != "ERROR") ||
      (p.1.1 == "test_" ++ p.2 && p.1.2.status == "ERROR")) = true ∧
    (run_all_tests statRaisesEnv).tests.get? 1 =
      some ("test_device_node_creation", ⟨"ERROR", "No such file or directory", 0⟩) ∧
    (run_all_tests successEnv).tests.get? 1 =
      some ("device_node_creation",
        ⟨"PASS", "Character device /dev/hello_world created successfully", 3⟩) := by
  refine ⟨?_, by decide, by decide⟩
  rw [List.all_eq_true]
  intro p hp
  simp only [run_all_tests, testSequence, checkShortNames, List.map_cons, List.map_nil,
    List.zip_cons_cons, List.zip_nil_left, List.mem_cons, List.not_mem_nil, or_false] at hp
  rcases hp with h | h | h | h | h | h | h <;> subst h
  · obtain ⟨r, hr, hst⟩ := test_module_load_shape env
    exact runOne_key _ _ _ (Or.inl ⟨r, hr, by rcases hst with h | h <;> rw [h] <;> decide⟩)
  · rcases test_device_node_creation_shape env with ⟨r, hr, hst⟩ | ⟨m, hm⟩
    · exact runOne_key _ _ _ (Or.inl ⟨r, hr, by rcases hst with h | h <;> rw [h] <;> decide⟩)
    · exact runOne_key _ _ _ (Or.inr ⟨m, hm⟩)
  · obtain ⟨r, hr, hst⟩ := test_device_open_close_shape env
    exact runOne_key _ _ _ (Or.inl ⟨r, hr, by rcases hst with h | h <;> rw [h] <;> decide⟩)
  · obtain ⟨r, hr, hst⟩ := test_device_read_shape env
    exact runOne_key _ _ _ (Or.inl ⟨r, hr, by rcases hst with h | h | h <;> rw [h] <;> decide⟩)
  · obtain ⟨r, hr, hst⟩ := test_device_write_shape env
    exact runOne_key _ _ _ (Or.inl ⟨r, hr, by rcases hst with h | h | h <;> rw [h] <;> decide⟩)
  · obtain ⟨r, hr, hst⟩ := test_read_write_consistency_shape env
    exact runOne_key _ _ _ (Or.inl ⟨r, hr, by rcases hst with h | h <;> rw [h] <;> decide⟩)
  · obtain ⟨r, hr, hst⟩ := test_module_unload_shape env
    exact runOne_key _ _ _ (Or.inl ⟨r, hr, by rcases hst with h | h <;> rw [h] <;> decide⟩)

end DriverEval
